import Mathlib

/-!
# Beneficiary resource client (`beneficiary.go`)

A shallow embedding of the five beneficiary operations of the client
(`CreateBeneficiary`, `GetAllBeneficiaries`, `GetBeneficiary`, `UpdateBeneficiary`,
`DeleteBeneficiary`) and the properties of their validation, request shaping, dispatch
and response handling.

Modelling conventions.

* Go strings are Lean `String`s; `+` is `++`; `x == ""` is `x = ""`.
* The operations take a pointer to a record; the pointer is taken to be non-nil and the
  record is passed by value.  `GetAllBeneficiaries` writes through its pointer, so its
  model also returns the record as the caller sees it afterwards.
* `c.sendRequest`, `json.Unmarshal`, the type `Response` and the package variable
  `jsonResponse` are declared outside `beneficiary.go`.  The dispatcher and the decoder
  are parameters (`Env`), `Response` is a type parameter, and `jsonResponse` is a field of
  the explicit program state (`World`).
* `World.calls` is a log of the dispatcher invocations, in order; it exists only so
  that the number and the arguments of the dispatch calls can be stated.
-/

namespace Fincra

/-! ## Data model -/

def beneficiariesUrl : String := "/profile/beneficiaries/business/"

abbrev BeneficiaryType := String
abbrev PaymentDestinationType := String

def Individual : BeneficiaryType := "individual"
def Corporate : BeneficiaryType := "corporate"
def MobileMoneyWallet : PaymentDestinationType := "mobile_money_wallet"
def BankAccount : PaymentDestinationType := "bank_account"
def CryptoWallet : PaymentDestinationType := "crypto_wallet"
def FliqPayWallet : PaymentDestinationType := "fliqpay_wallet"

structure Address where
  Country : String
  State : String
  Street : String
  Zip : String
  City : String
deriving DecidableEq, Repr

structure Bank where
  Name : String
  Code : String
  SortCode : String
  SwiftCode : String
  Address : Address
deriving DecidableEq, Repr

/-- The Go field `Type` is spelled `Type_` here (`Type` is reserved). -/
structure CreateBeneficiaryBody where
  FirstName : String
  LastName : String
  Email : String
  PhoneNumber : String
  AccountHolderName : String
  Bank : Bank
  Type_ : BeneficiaryType
  Currency : String
  PaymentDestination : PaymentDestinationType
  DestinationAddress : String
  UniqueIdentifier : String
  BusinessId : String
deriving DecidableEq, Repr

structure UpdateBeneficiaryBody where
  FirstName : String
  LastName : String
  Email : String
  PhoneNumber : String
  AccountHolderName : String
  Bank : Bank
  Type_ : BeneficiaryType
  Currency : String
  PaymentDestination : PaymentDestinationType
  DestinationAddress : String
  UniqueIdentifier : String
  BusinessId : String
  BeneficiaryId : String
deriving DecidableEq, Repr

/-- The body record sent by create and update: it has no identifier field at all. -/
structure createBeneficiaryRequest where
  FirstName : String
  LastName : String
  Email : String
  PhoneNumber : String
  AccountHolderName : String
  Bank : Bank
  Type_ : BeneficiaryType
  Currency : String
  PaymentDestination : PaymentDestinationType
  DestinationAddress : String
  UniqueIdentifier : String
deriving DecidableEq, Repr

structure GetAllBeneficiariesParams where
  BusinessId : String
  Page : String
  PerPage : String
deriving DecidableEq, Repr

structure getBeneficiariesRequest where
  Page : String
  PerPage : String
deriving DecidableEq, Repr

structure GetBeneficiaryParams where
  BusinessId : String
  BeneficiaryId : String
deriving DecidableEq, Repr

/-! ## The dispatcher interface and the program state -/

/-- The third argument of `sendRequest`: `nil`, a pointer to a `createBeneficiaryRequest`
or a pointer to a `getBeneficiariesRequest`; these are the only values `beneficiary.go`
passes. -/
inductive RequestBody where
  | nil
  | createBeneficiaryRequest (request : createBeneficiaryRequest)
  | getBeneficiariesRequest (request : getBeneficiariesRequest)
deriving DecidableEq, Repr

/-- Go `error` values.  `errorsNew text` is the value of `errors.New(text)`; every other
error (those of the transport, of the remote service, of the decoder) is a `foreign`
one, of a type the client does not look into. -/
inductive GoError (ε : Type) where
  | errorsNew (text : String)
  | foreign (e : ε)
deriving DecidableEq, Repr

/-- One invocation of the dispatcher: the `(method, path, body)` triple it was given. -/
structure Call where
  method : String
  path : String
  body : RequestBody
deriving DecidableEq, Repr

/-- What `beneficiary.go` uses and does not declare.

* `sendRequest` is `c.sendRequest(method, path, body)`: from the state `σ` of the
  transport it yields the raw reply bytes, an optional error, and the next transport state.
* `jsonUnmarshal data dest` is `json.Unmarshal(data, &dest)`: it yields the value the
  destination holds afterwards and the optional decoding error.
* `emptyResponse` is the composite literal `Response{}`. -/
structure Env (Response ε σ : Type) where
  sendRequest : σ → String → String → RequestBody → (List UInt8 × Option (GoError ε)) × σ
  jsonUnmarshal : List UInt8 → Response → Response × Option (GoError ε)
  emptyResponse : Response

/-- The program state: the package variable `jsonResponse`, the state of the transport,
and the log of dispatcher invocations. -/
structure World (Response σ : Type) where
  jsonResponse : Response
  net : σ
  calls : List Call

/-- The statement `response, err := c.sendRequest(method, path, body)`: it runs the
dispatcher once and appends the triple to the log. -/
def callSendRequest {Response ε σ : Type} (env : Env Response ε σ) (w : World Response σ)
    (method path : String) (body : RequestBody) :
    (List UInt8 × Option (GoError ε)) × World Response σ :=
  let r := env.sendRequest w.net method path body
  (r.1, { w with net := r.2, calls := w.calls ++ [⟨method, path, body⟩] })

/-- The statement `_ = json.Unmarshal(response, &jsonResponse)`: the decoder writes what
it writes into the package variable, and its error is discarded. -/
def unmarshalIntoJsonResponse {Response ε σ : Type} (env : Env Response ε σ)
    (response : List UInt8) (w : World Response σ) : World Response σ :=
  { w with jsonResponse := (env.jsonUnmarshal response w.jsonResponse).1 }

/-! ## The five operations -/

def businessIdRequiredError : String := "businessId is required to fetch the beneficiary"

def CreateBeneficiary {Response ε σ : Type} (env : Env Response ε σ)
    (beneficiary : CreateBeneficiaryBody) (w : World Response σ) :
    (Response × Option (GoError ε)) × World Response σ :=
  if beneficiary.BusinessId = "" then
    ((env.emptyResponse, some (.errorsNew "business ID is required for beneficiary")), w)
  else
    let path := beneficiariesUrl ++ beneficiary.BusinessId
    let request : createBeneficiaryRequest :=
      { FirstName := beneficiary.FirstName
        LastName := beneficiary.LastName
        Email := beneficiary.Email
        PhoneNumber := beneficiary.PhoneNumber
        AccountHolderName := beneficiary.AccountHolderName
        Bank := beneficiary.Bank
        Type_ := beneficiary.Type_
        Currency := beneficiary.Currency
        PaymentDestination := beneficiary.PaymentDestination
        DestinationAddress := beneficiary.DestinationAddress
        UniqueIdentifier := beneficiary.UniqueIdentifier }
    let sent := callSendRequest env w "POST" path (.createBeneficiaryRequest request)
    let w2 := unmarshalIntoJsonResponse env sent.1.1 sent.2
    ((w2.jsonResponse, sent.1.2), w2)

/-- The first component of the result is the record behind `params` after the call. -/
def GetAllBeneficiaries {Response ε σ : Type} (env : Env Response ε σ)
    (params : GetAllBeneficiariesParams) (w : World Response σ) :
    (GetAllBeneficiariesParams × Response × Option (GoError ε)) × World Response σ :=
  if params.BusinessId = "" then
    ((params, env.emptyResponse, some (.errorsNew businessIdRequiredError)), w)
  else
    let params := if params.Page = "" then { params with Page := "1" } else params
    let params := if params.PerPage = "" then { params with PerPage := "10" } else params
    let path := beneficiariesUrl ++ params.BusinessId
    let request : getBeneficiariesRequest :=
      { Page := params.Page
        PerPage := params.PerPage }
    let sent := callSendRequest env w "GET" path (.getBeneficiariesRequest request)
    let w2 := unmarshalIntoJsonResponse env sent.1.1 sent.2
    ((params, w2.jsonResponse, sent.1.2), w2)

def GetBeneficiary {Response ε σ : Type} (env : Env Response ε σ)
    (params : GetBeneficiaryParams) (w : World Response σ) :
    (Response × Option (GoError ε)) × World Response σ :=
  if params.BusinessId = "" then
    ((env.emptyResponse, some (.errorsNew businessIdRequiredError)), w)
  else if params.BeneficiaryId = "" then
    ((env.emptyResponse,
      some (.errorsNew "beneficiaryId is required to fetch the beneficiary")), w)
  else
    let path := beneficiariesUrl ++ params.BusinessId ++ "/" ++ params.BeneficiaryId
    let sent := callSendRequest env w "GET" path .nil
    let w2 := unmarshalIntoJsonResponse env sent.1.1 sent.2
    ((w2.jsonResponse, sent.1.2), w2)

def UpdateBeneficiary {Response ε σ : Type} (env : Env Response ε σ)
    (body : UpdateBeneficiaryBody) (w : World Response σ) :
    (Response × Option (GoError ε)) × World Response σ :=
  if body.BusinessId = "" then
    ((env.emptyResponse,
      some (.errorsNew "businessId is required to update the beneficiary")), w)
  else if body.BeneficiaryId = "" then
    ((env.emptyResponse,
      some (.errorsNew "beneficiaryId is required to update the beneficiary")), w)
  else
    let path := beneficiariesUrl ++ body.BusinessId ++ "/" ++ body.BeneficiaryId
    let request : createBeneficiaryRequest :=
      { FirstName := body.FirstName
        LastName := body.LastName
        Email := body.Email
        PhoneNumber := body.PhoneNumber
        AccountHolderName := body.AccountHolderName
        Bank := body.Bank
        Type_ := body.Type_
        Currency := body.Currency
        PaymentDestination := body.PaymentDestination
        DestinationAddress := body.DestinationAddress
        UniqueIdentifier := body.UniqueIdentifier }
    let sent := callSendRequest env w "PATCH" path (.createBeneficiaryRequest request)
    let w2 := unmarshalIntoJsonResponse env sent.1.1 sent.2
    ((w2.jsonResponse, sent.1.2), w2)

def DeleteBeneficiary {Response ε σ : Type} (env : Env Response ε σ)
    (params : GetBeneficiaryParams) (w : World Response σ) :
    (Response × Option (GoError ε)) × World Response σ :=
  if params.BusinessId = "" then
    ((env.emptyResponse,
      some (.errorsNew "businessId is required to fetch the beneficiary")), w)
  else if params.BeneficiaryId = "" then
    ((env.emptyResponse,
      some (.errorsNew "beneficiaryId is required to fetch the beneficiary")), w)
  else
    let path := beneficiariesUrl ++ params.BusinessId ++ "/" ++ params.BeneficiaryId
    let sent := callSendRequest env w "DELETE" path .nil
    let w2 := unmarshalIntoJsonResponse env sent.1.1 sent.2
    ((w2.jsonResponse, sent.1.2), w2)

/-! ## Vocabulary of the properties -/

/-- Whether `word` occurs in `msg` as a contiguous run of characters. -/
def mentions (msg word : String) : Bool :=
  msg.data.tails.any (fun t => word.data.isPrefixOf t)

/-- The path built from two identifiers by fetch, update and delete. -/
def beneficiaryPath (businessId beneficiaryId : String) : String :=
  beneficiariesUrl ++ businessId ++ "/" ++ beneficiaryId

/-! ## Concrete instances used to evaluate the operations -/

/-- A decoder in the manner of `encoding/json` over a toy `Response` (the list of reply
bytes last stored): an empty input is rejected before the destination is written, any
other input replaces the destination. -/
def demoUnmarshal (data : List UInt8) (dest : List UInt8) :
    List UInt8 × Option (GoError String) :=
  if data = [] then (dest, some (.foreign "unexpected end of JSON input")) else (data, none)

/-- A transport whose state is the number of requests served so far: it answers a `GET`
with the bytes `[123, 125]` and no error, and anything else with an empty reply and an
error. -/
def demoSendRequest (n : Nat) (method _path : String) (_body : RequestBody) :
    (List UInt8 × Option (GoError String)) × Nat :=
  if method = "GET" then (([123, 125], none), n + 1)
  else (([], some (.foreign "503 Service Unavailable")), n + 1)

def demoEnv : Env (List UInt8) String Nat :=
  { sendRequest := demoSendRequest
    jsonUnmarshal := demoUnmarshal
    emptyResponse := [] }

def demoWorld : World (List UInt8) Nat :=
  { jsonResponse := [], net := 0, calls := [] }

def demoAddress : Address :=
  { Country := "NG", State := "Lagos", Street := "1 Marina", Zip := "100001", City := "Lagos" }

def demoBank : Bank :=
  { Name := "Wema", Code := "035", SortCode := "0350", SwiftCode := "WEMANGLA",
    Address := demoAddress }

def demoCreate (businessId : String) : CreateBeneficiaryBody :=
  { FirstName := "John", LastName := "Doe", Email := "john@example.com",
    PhoneNumber := "0800", AccountHolderName := "John Doe", Bank := demoBank,
    Type_ := Individual, Currency := "NGN", PaymentDestination := BankAccount,
    DestinationAddress := "0123456789", UniqueIdentifier := "u1", BusinessId := businessId }

def demoUpdate (businessId beneficiaryId : String) : UpdateBeneficiaryBody :=
  { FirstName := "John", LastName := "Doe", Email := "john@example.com",
    PhoneNumber := "0800", AccountHolderName := "John Doe", Bank := demoBank,
    Type_ := Individual, Currency := "NGN", PaymentDestination := BankAccount,
    DestinationAddress := "0123456789", UniqueIdentifier := "u1", BusinessId := businessId,
    BeneficiaryId := beneficiaryId }

/-! ## The operations seen uniformly -/

/-- A call of one of the five operations together with its argument. -/
inductive Invocation where
  | create (beneficiary : CreateBeneficiaryBody)
  | list (params : GetAllBeneficiariesParams)
  | get (params : GetBeneficiaryParams)
  | update (body : UpdateBeneficiaryBody)
  | delete (params : GetBeneficiaryParams)
deriving DecidableEq, Repr

/-- The `BusinessId` of the argument. -/
def Invocation.businessId : Invocation → String
  | .create beneficiary => beneficiary.BusinessId
  | .list params => params.BusinessId
  | .get params => params.BusinessId
  | .update body => body.BusinessId
  | .delete params => params.BusinessId

/-- The `BeneficiaryId` of the argument, for the three operations whose argument has one. -/
def Invocation.beneficiaryId : Invocation → Option String
  | .create _ => none
  | .list _ => none
  | .get params => some params.BeneficiaryId
  | .update body => some body.BeneficiaryId
  | .delete params => some params.BeneficiaryId

/-- The `(Response, error)` pair the operation returns, and the state it leaves. -/
def Invocation.run {Response ε σ : Type} (env : Env Response ε σ) :
    Invocation → World Response σ → (Response × Option (GoError ε)) × World Response σ
  | .create beneficiary, w => CreateBeneficiary env beneficiary w
  | .list params, w =>
      let r := GetAllBeneficiaries env params w
      ((r.1.2.1, r.1.2.2), r.2)
  | .get params, w => GetBeneficiary env params w
  | .update body, w => UpdateBeneficiary env body w
  | .delete params, w => DeleteBeneficiary env params w

/-- The argument passes validation: every identifier the operation requires is non-empty. -/
def Invocation.valid (inv : Invocation) : Prop :=
  inv.businessId ≠ "" ∧ inv.beneficiaryId ≠ some ""

instance (inv : Invocation) : Decidable inv.valid := by
  unfold Invocation.valid; exact inferInstance

/-- The words by which an operation can be named in a message. -/
def operationWords : List String := ["create", "list", "fetch", "update", "delete"]

/-- How the validation message of the operation spells the business identifier. -/
def Invocation.businessIdWord : Invocation → String
  | .create _ => "business ID"
  | _ => "businessId"

/-- The operation word found in the validation messages of `GetAllBeneficiaries`,
`GetBeneficiary` and `UpdateBeneficiary`.  `CreateBeneficiary` has none; the word in
the messages of `DeleteBeneficiary` is left open here. -/
def Invocation.messageOperationWord : Invocation → Option String
  | .create _ => none
  | .list _ => some "fetch"
  | .get _ => some "fetch"
  | .update _ => some "update"
  | .delete _ => none

/-! ## The common tail of the operations, as definitions -/

/-- What every operation does once validation has passed and the triple is built:
one dispatch, one decode into `jsonResponse`, and the return of `jsonResponse` with the
dispatcher's error. -/
def dispatchAndDecode {Response ε σ : Type} (env : Env Response ε σ) (w : World Response σ)
    (c : Call) : (Response × Option (GoError ε)) × World Response σ :=
  let sent := callSendRequest env w c.method c.path c.body
  let w2 := unmarshalIntoJsonResponse env sent.1.1 sent.2
  ((w2.jsonResponse, sent.1.2), w2)

/-- The triple the operation hands to the dispatcher when its argument is valid. -/
def Invocation.triple : Invocation → Call
  | .create beneficiary =>
      ⟨"POST", beneficiariesUrl ++ beneficiary.BusinessId,
        .createBeneficiaryRequest
          ⟨beneficiary.FirstName, beneficiary.LastName, beneficiary.Email,
            beneficiary.PhoneNumber, beneficiary.AccountHolderName, beneficiary.Bank,
            beneficiary.Type_, beneficiary.Currency, beneficiary.PaymentDestination,
            beneficiary.DestinationAddress, beneficiary.UniqueIdentifier⟩⟩
  | .list params =>
      ⟨"GET", beneficiariesUrl ++ params.BusinessId,
        .getBeneficiariesRequest
          ⟨if params.Page = "" then "1" else params.Page,
            if params.PerPage = "" then "10" else params.PerPage⟩⟩
  | .get params => ⟨"GET", beneficiaryPath params.BusinessId params.BeneficiaryId, .nil⟩
  | .update body =>
      ⟨"PATCH", beneficiaryPath body.BusinessId body.BeneficiaryId,
        .createBeneficiaryRequest
          ⟨body.FirstName, body.LastName, body.Email, body.PhoneNumber,
            body.AccountHolderName, body.Bank, body.Type_, body.Currency,
            body.PaymentDestination, body.DestinationAddress, body.UniqueIdentifier⟩⟩
  | .delete params => ⟨"DELETE", beneficiaryPath params.BusinessId params.BeneficiaryId, .nil⟩

/-- The state after a successful `GetBeneficiary`: `jsonResponse` holds `[123, 125]`. -/
def demoWorldAfterGet : World (List UInt8) Nat :=
  (GetBeneficiary demoEnv ⟨"b1", "ben1"⟩ demoWorld).2

/-! ## Evaluation on concrete inputs -/

example : mentions "businessId is required to fetch the beneficiary" "fetch" = true := by decide
example : mentions "businessId is required to fetch the beneficiary" "delete" = false := by decide
example : (GetBeneficiary demoEnv ⟨"b1", "ben1"⟩ demoWorld).2.calls =
    [⟨"GET", "/profile/beneficiaries/business/b1/ben1", .nil⟩] := by decide
example : (CreateBeneficiary demoEnv (demoCreate "b1") demoWorld).1 =
    ([], some (.foreign "503 Service Unavailable")) := by decide

/-! ## The common tail of the operations -/

/-- On a valid argument each operation is `dispatchAndDecode` at its triple. -/
theorem Invocation.run_of_valid {Response ε σ : Type} (env : Env Response ε σ)
    (w : World Response σ) (inv : Invocation) (h : inv.valid) :
    inv.run env w = dispatchAndDecode env w inv.triple := by
  obtain ⟨hb, hn⟩ := h
  cases inv with
  | create beneficiary =>
    simp only [Invocation.businessId] at hb
    simp [Invocation.run, Invocation.triple, CreateBeneficiary, dispatchAndDecode, hb]
  | list params =>
    simp only [Invocation.businessId] at hb
    by_cases hp : params.Page = "" <;> by_cases hq : params.PerPage = "" <;>
      simp [Invocation.run, Invocation.triple, GetAllBeneficiaries, dispatchAndDecode,
        hb, hp, hq]
  | get params =>
    simp only [Invocation.businessId] at hb
    simp only [Invocation.beneficiaryId, ne_eq, Option.some.injEq] at hn
    simp [Invocation.run, Invocation.triple, GetBeneficiary, dispatchAndDecode,
      beneficiaryPath, hb, hn]
  | update body =>
    simp only [Invocation.businessId] at hb
    simp only [Invocation.beneficiaryId, ne_eq, Option.some.injEq] at hn
    simp [Invocation.run, Invocation.triple, UpdateBeneficiary, dispatchAndDecode,
      beneficiaryPath, hb, hn]
  | delete params =>
    simp only [Invocation.businessId] at hb
    simp only [Invocation.beneficiaryId, ne_eq, Option.some.injEq] at hn
    simp [Invocation.run, Invocation.triple, DeleteBeneficiary, dispatchAndDecode,
      beneficiaryPath, hb, hn]

/-- On an argument that fails validation each operation returns `Response{}` and leaves
the state as it was. -/
theorem Invocation.run_of_not_valid {Response ε σ : Type} (env : Env Response ε σ)
    (w : World Response σ) (inv : Invocation) (h : ¬ inv.valid) :
    (inv.run env w).1.1 = env.emptyResponse ∧ (inv.run env w).2 = w := by
  unfold Invocation.valid at h
  cases inv with
  | create beneficiary =>
    simp only [Invocation.businessId, Invocation.beneficiaryId] at h
    simp [Invocation.run, CreateBeneficiary, show beneficiary.BusinessId = "" by simpa using h]
  | list params =>
    simp only [Invocation.businessId, Invocation.beneficiaryId] at h
    simp [Invocation.run, GetAllBeneficiaries, show params.BusinessId = "" by simpa using h]
  | get params =>
    simp only [Invocation.businessId, Invocation.beneficiaryId] at h
    by_cases hb : params.BusinessId = ""
    · simp [Invocation.run, GetBeneficiary, hb]
    · have hn : params.BeneficiaryId = "" := by simpa [hb] using h
      simp [Invocation.run, GetBeneficiary, hb, hn]
  | update body =>
    simp only [Invocation.businessId, Invocation.beneficiaryId] at h
    by_cases hb : body.BusinessId = ""
    · simp [Invocation.run, UpdateBeneficiary, hb]
    · have hn : body.BeneficiaryId = "" := by simpa [hb] using h
      simp [Invocation.run, UpdateBeneficiary, hb, hn]
  | delete params =>
    simp only [Invocation.businessId, Invocation.beneficiaryId] at h
    by_cases hb : params.BusinessId = ""
    · simp [Invocation.run, DeleteBeneficiary, hb]
    · have hn : params.BeneficiaryId = "" := by simpa [hb] using h
      simp [Invocation.run, DeleteBeneficiary, hb, hn]

/-! ## Validation failures -/

/-- C1: whichever of the five operations is called, when the `businessId` of its argument is
the empty string (whatever the other fields, an empty `beneficiaryId` included) it
returns the empty `Response` together with a non-nil error made by `errors.New`, and
the dispatcher is not called: the log of calls and the transport state are as before. -/
theorem empty_businessId_is_rejected {Response ε σ : Type} (env : Env Response ε σ)
    (w : World Response σ) (inv : Invocation) (h : inv.businessId = "") :
    (inv.run env w).1.1 = env.emptyResponse ∧
    (∃ msg, (inv.run env w).1.2 = some (GoError.errorsNew msg)) ∧
    (inv.run env w).2.calls = w.calls ∧
    (inv.run env w).2.net = w.net := by
  cases inv <;>
    simp_all [Invocation.businessId, Invocation.run, CreateBeneficiary, GetAllBeneficiaries,
      GetBeneficiary, UpdateBeneficiary, DeleteBeneficiary]

theorem empty_businessId_is_rejected_witness :
    (Invocation.delete ⟨"", ""⟩).businessId = "" ∧
    ((Invocation.delete ⟨"", ""⟩).run demoEnv demoWorld).1.1 = demoEnv.emptyResponse ∧
    (∃ msg, ((Invocation.delete ⟨"", ""⟩).run demoEnv demoWorld).1.2 =
      some (GoError.errorsNew msg)) ∧
    ((Invocation.delete ⟨"", ""⟩).run demoEnv demoWorld).2.calls = demoWorld.calls ∧
    ((Invocation.delete ⟨"", ""⟩).run demoEnv demoWorld).2.net = demoWorld.net :=
  ⟨rfl, empty_businessId_is_rejected demoEnv demoWorld (Invocation.delete ⟨"", ""⟩) rfl⟩

/-- C2: for `GetBeneficiary`, `UpdateBeneficiary` and `DeleteBeneficiary`, when the
`businessId` is non-empty and the `beneficiaryId` is empty, the operation returns the
empty `Response` together with a non-nil `errors.New` error whose message contains the
word `beneficiaryId`, and the dispatcher is not called. -/
theorem empty_beneficiaryId_is_rejected {Response ε σ : Type} (env : Env Response ε σ)
    (w : World Response σ) (inv : Invocation) (hb : inv.businessId ≠ "")
    (hn : inv.beneficiaryId = some "") :
    (inv.run env w).1.1 = env.emptyResponse ∧
    (∃ msg, (inv.run env w).1.2 = some (GoError.errorsNew msg) ∧
      mentions msg "beneficiaryId" = true) ∧
    (inv.run env w).2.calls = w.calls ∧
    (inv.run env w).2.net = w.net := by
  cases inv <;>
    simp_all [Invocation.businessId, Invocation.beneficiaryId, Invocation.run,
      GetBeneficiary, UpdateBeneficiary, DeleteBeneficiary] <;> decide

theorem empty_beneficiaryId_is_rejected_witness :
    (Invocation.update (demoUpdate "b1" "")).businessId ≠ "" ∧
    (Invocation.update (demoUpdate "b1" "")).beneficiaryId = some "" ∧
    ((Invocation.update (demoUpdate "b1" "")).run demoEnv demoWorld).1.1 =
      demoEnv.emptyResponse ∧
    (∃ msg, ((Invocation.update (demoUpdate "b1" "")).run demoEnv demoWorld).1.2 =
        some (GoError.errorsNew msg) ∧ mentions msg "beneficiaryId" = true) ∧
    ((Invocation.update (demoUpdate "b1" "")).run demoEnv demoWorld).2.calls =
      demoWorld.calls ∧
    ((Invocation.update (demoUpdate "b1" "")).run demoEnv demoWorld).2.net = demoWorld.net :=
  ⟨by decide, rfl,
    empty_beneficiaryId_is_rejected demoEnv demoWorld (Invocation.update (demoUpdate "b1" ""))
      (by decide) rfl⟩

/-! ## Request shaping and dispatch -/

/-- C3: for every `CreateBeneficiaryBody` with a non-empty `businessId`, whatever its
other fields, `CreateBeneficiary` calls the dispatcher exactly once, with method `POST`,
path `/profile/beneficiaries/business/` followed by the `businessId`, and a
`createBeneficiaryRequest` body (a record with no `businessId` field) each of whose
eleven fields is the input's field of the same name. -/
theorem create_dispatches_post {Response ε σ : Type} (env : Env Response ε σ)
    (w : World Response σ) (beneficiary : CreateBeneficiaryBody)
    (h : beneficiary.BusinessId ≠ "") :
    ∃ request : createBeneficiaryRequest,
      (CreateBeneficiary env beneficiary w).2.calls =
        w.calls ++ [⟨"POST", "/profile/beneficiaries/business/" ++ beneficiary.BusinessId,
          RequestBody.createBeneficiaryRequest request⟩] ∧
      request.FirstName = beneficiary.FirstName ∧
      request.LastName = beneficiary.LastName ∧
      request.Email = beneficiary.Email ∧
      request.PhoneNumber = beneficiary.PhoneNumber ∧
      request.AccountHolderName = beneficiary.AccountHolderName ∧
      request.Bank = beneficiary.Bank ∧
      request.Type_ = beneficiary.Type_ ∧
      request.Currency = beneficiary.Currency ∧
      request.PaymentDestination = beneficiary.PaymentDestination ∧
      request.DestinationAddress = beneficiary.DestinationAddress ∧
      request.UniqueIdentifier = beneficiary.UniqueIdentifier := by
  refine ⟨⟨beneficiary.FirstName, beneficiary.LastName, beneficiary.Email, beneficiary.PhoneNumber,
    beneficiary.AccountHolderName, beneficiary.Bank, beneficiary.Type_, beneficiary.Currency,
    beneficiary.PaymentDestination, beneficiary.DestinationAddress,
    beneficiary.UniqueIdentifier⟩, ?_, rfl, rfl, rfl, rfl, rfl, rfl, rfl, rfl, rfl, rfl, rfl⟩
  simp [CreateBeneficiary, callSendRequest, unmarshalIntoJsonResponse, beneficiariesUrl, h]

theorem create_dispatches_post_witness :
    (demoCreate "b1").BusinessId ≠ "" ∧
    ∃ request : createBeneficiaryRequest,
      (CreateBeneficiary demoEnv (demoCreate "b1") demoWorld).2.calls =
        [⟨"POST", "/profile/beneficiaries/business/b1",
          RequestBody.createBeneficiaryRequest request⟩] ∧
      request.FirstName = "John" ∧
      request.LastName = "Doe" ∧
      request.Email = "john@example.com" ∧
      request.PhoneNumber = "0800" ∧
      request.AccountHolderName = "John Doe" ∧
      request.Bank = demoBank ∧
      request.Type_ = "individual" ∧
      request.Currency = "NGN" ∧
      request.PaymentDestination = "bank_account" ∧
      request.DestinationAddress = "0123456789" ∧
      request.UniqueIdentifier = "u1" :=
  ⟨by decide, create_dispatches_post demoEnv demoWorld (demoCreate "b1") (by decide)⟩

/-- C4: for every `GetAllBeneficiariesParams` with a non-empty `businessId`,
`GetAllBeneficiaries` calls the dispatcher exactly once, with method `GET`, path
`/profile/beneficiaries/business/` followed by the `businessId`, and a
`getBeneficiariesRequest` body (page and perPage only) whose page is `"1"` when the
caller's page is empty and the caller's page otherwise, and whose perPage is `"10"`
when the caller's perPage is empty and the caller's perPage otherwise. -/
theorem list_dispatches_get_with_defaults {Response ε σ : Type} (env : Env Response ε σ)
    (w : World Response σ) (params : GetAllBeneficiariesParams)
    (h : params.BusinessId ≠ "") :
    (GetAllBeneficiaries env params w).2.calls =
      w.calls ++ [⟨"GET", "/profile/beneficiaries/business/" ++ params.BusinessId,
        RequestBody.getBeneficiariesRequest
          { Page := if params.Page = "" then "1" else params.Page
            PerPage := if params.PerPage = "" then "10" else params.PerPage }⟩] := by
  by_cases hp : params.Page = "" <;> by_cases hq : params.PerPage = "" <;>
    simp [GetAllBeneficiaries, callSendRequest, unmarshalIntoJsonResponse, beneficiariesUrl,
      h, hp, hq]

theorem list_dispatches_get_with_defaults_witness :
    (⟨"b1", "", ""⟩ : GetAllBeneficiariesParams).BusinessId ≠ "" ∧
    (GetAllBeneficiaries demoEnv ⟨"b1", "", ""⟩ demoWorld).2.calls =
      [⟨"GET", "/profile/beneficiaries/business/b1",
        RequestBody.getBeneficiariesRequest { Page := "1", PerPage := "10" }⟩] :=
  ⟨by decide, list_dispatches_get_with_defaults demoEnv demoWorld ⟨"b1", "", ""⟩ (by decide)⟩

/-- C5: for every `UpdateBeneficiaryBody` with non-empty `businessId` and `beneficiaryId`,
`UpdateBeneficiary` calls the dispatcher exactly once, with method `PATCH`, path
`/profile/beneficiaries/business/` ++ businessId ++ `/` ++ beneficiaryId, and a
`createBeneficiaryRequest` body (a record with neither identifier); that body is the very
body `CreateBeneficiary` sends for any `CreateBeneficiaryBody` (with a non-empty
`businessId`) that agrees with the input on the eleven other fields. -/
theorem update_dispatches_patch_with_create_body {Response ε σ : Type}
    (env : Env Response ε σ) (w : World Response σ) (body : UpdateBeneficiaryBody)
    (hb : body.BusinessId ≠ "") (hn : body.BeneficiaryId ≠ "") :
    ∃ request : createBeneficiaryRequest,
      (UpdateBeneficiary env body w).2.calls =
        w.calls ++ [⟨"PATCH",
          "/profile/beneficiaries/business/" ++ body.BusinessId ++ "/" ++ body.BeneficiaryId,
          RequestBody.createBeneficiaryRequest request⟩] ∧
      ∀ (beneficiary : CreateBeneficiaryBody) (w0 : World Response σ),
        beneficiary.BusinessId ≠ "" →
        beneficiary.FirstName = body.FirstName →
        beneficiary.LastName = body.LastName →
        beneficiary.Email = body.Email →
        beneficiary.PhoneNumber = body.PhoneNumber →
        beneficiary.AccountHolderName = body.AccountHolderName →
        beneficiary.Bank = body.Bank →
        beneficiary.Type_ = body.Type_ →
        beneficiary.Currency = body.Currency →
        beneficiary.PaymentDestination = body.PaymentDestination →
        beneficiary.DestinationAddress = body.DestinationAddress →
        beneficiary.UniqueIdentifier = body.UniqueIdentifier →
        (CreateBeneficiary env beneficiary w0).2.calls =
          w0.calls ++ [⟨"POST", "/profile/beneficiaries/business/" ++ beneficiary.BusinessId,
            RequestBody.createBeneficiaryRequest request⟩] := by
  refine ⟨⟨body.FirstName, body.LastName, body.Email, body.PhoneNumber,
    body.AccountHolderName, body.Bank, body.Type_, body.Currency,
    body.PaymentDestination, body.DestinationAddress,
    body.UniqueIdentifier⟩, ?_, ?_⟩
  · simp only [UpdateBeneficiary, callSendRequest, unmarshalIntoJsonResponse,
      beneficiariesUrl, hb, hn, if_false]
  · intro beneficiary w0 h0 h1 h2 h3 h4 h5 h6 h7 h8 h9 h10 h11
    simp [CreateBeneficiary, callSendRequest, unmarshalIntoJsonResponse, beneficiariesUrl,
      h0, h1, h2, h3, h4, h5, h6, h7, h8, h9, h10, h11]

theorem update_dispatches_patch_with_create_body_witness :
    (demoUpdate "b1" "ben1").BusinessId ≠ "" ∧
    (demoUpdate "b1" "ben1").BeneficiaryId ≠ "" ∧
    ∃ request : createBeneficiaryRequest,
      (UpdateBeneficiary demoEnv (demoUpdate "b1" "ben1") demoWorld).2.calls =
        [⟨"PATCH", "/profile/beneficiaries/business/b1/ben1",
          RequestBody.createBeneficiaryRequest request⟩] ∧
      (CreateBeneficiary demoEnv (demoCreate "b7") demoWorld).2.calls =
        [⟨"POST", "/profile/beneficiaries/business/b7",
          RequestBody.createBeneficiaryRequest request⟩] :=
  ⟨by decide, by decide,
    (update_dispatches_patch_with_create_body demoEnv demoWorld (demoUpdate "b1" "ben1")
      (by decide) (by decide)).imp
      (fun _ hr => ⟨hr.1, hr.2 (demoCreate "b7") demoWorld (by decide)
        rfl rfl rfl rfl rfl rfl rfl rfl rfl rfl rfl⟩)⟩

/-- C6: for every `GetBeneficiaryParams` with non-empty `businessId` and `beneficiaryId`,
`GetBeneficiary` calls the dispatcher exactly once with method `GET` and
`DeleteBeneficiary` calls it exactly once with method `DELETE`, both with path
`/profile/beneficiaries/business/` ++ businessId ++ `/` ++ beneficiaryId and both with a
nil body; the two triples have the same path and body and different methods. -/
theorem get_and_delete_dispatch {Response ε σ : Type} (env : Env Response ε σ)
    (w : World Response σ) (params : GetBeneficiaryParams)
    (hb : params.BusinessId ≠ "") (hn : params.BeneficiaryId ≠ "") :
    ∃ cg cd : Call,
      (GetBeneficiary env params w).2.calls = w.calls ++ [cg] ∧
      (DeleteBeneficiary env params w).2.calls = w.calls ++ [cd] ∧
      cg = ⟨"GET",
        "/profile/beneficiaries/business/" ++ params.BusinessId ++ "/" ++ params.BeneficiaryId,
        RequestBody.nil⟩ ∧
      cd = ⟨"DELETE",
        "/profile/beneficiaries/business/" ++ params.BusinessId ++ "/" ++ params.BeneficiaryId,
        RequestBody.nil⟩ ∧
      cg.path = cd.path ∧ cg.body = cd.body ∧ cg.method ≠ cd.method := by
  refine ⟨_, _, ?_, ?_, rfl, rfl, rfl, rfl, by simp⟩
  · simp only [GetBeneficiary, callSendRequest, unmarshalIntoJsonResponse,
      beneficiariesUrl, hb, hn, if_false]
  · simp only [DeleteBeneficiary, callSendRequest, unmarshalIntoJsonResponse,
      beneficiariesUrl, hb, hn, if_false]

theorem get_and_delete_dispatch_witness :
    (⟨"b1", "ben1"⟩ : GetBeneficiaryParams).BusinessId ≠ "" ∧
    (⟨"b1", "ben1"⟩ : GetBeneficiaryParams).BeneficiaryId ≠ "" ∧
    ∃ cg cd : Call,
      (GetBeneficiary demoEnv ⟨"b1", "ben1"⟩ demoWorld).2.calls = [cg] ∧
      (DeleteBeneficiary demoEnv ⟨"b1", "ben1"⟩ demoWorld).2.calls = [cd] ∧
      cg = ⟨"GET", "/profile/beneficiaries/business/b1/ben1", RequestBody.nil⟩ ∧
      cd = ⟨"DELETE", "/profile/beneficiaries/business/b1/ben1", RequestBody.nil⟩ ∧
      cg.path = cd.path ∧ cg.body = cd.body ∧ cg.method ≠ cd.method :=
  ⟨by decide, by decide,
    get_and_delete_dispatch demoEnv demoWorld ⟨"b1", "ben1"⟩ (by decide) (by decide)⟩

/-! ## Errors of the dispatcher -/

/-- C7: for each of the five operations and every argument that passes validation, the
dispatcher is called exactly once (one triple is appended to the log, and the transport
state is the one that call left), the error returned to the caller is exactly the error
that call returned (nil for nil), and that error is the same whatever the decoder does
with the reply. -/
theorem dispatcher_error_is_returned_unchanged {Response ε σ : Type}
    (env : Env Response ε σ) (w : World Response σ) (inv : Invocation) (h : inv.valid) :
    ∃ c : Call,
      (inv.run env w).2.calls = w.calls ++ [c] ∧
      (inv.run env w).1.2 = (env.sendRequest w.net c.method c.path c.body).1.2 ∧
      (inv.run env w).2.net = (env.sendRequest w.net c.method c.path c.body).2 ∧
      ∀ u : List UInt8 → Response → Response × Option (GoError ε),
        (inv.run { env with jsonUnmarshal := u } w).1.2 = (inv.run env w).1.2 := by
  refine ⟨inv.triple, ?_⟩
  rw [Invocation.run_of_valid env w inv h]
  refine ⟨rfl, rfl, rfl, fun u => ?_⟩
  rw [Invocation.run_of_valid { env with jsonUnmarshal := u } w inv h]
  rfl

theorem dispatcher_error_is_returned_unchanged_witness :
    (Invocation.create (demoCreate "b1")).valid ∧
    ((Invocation.create (demoCreate "b1")).run demoEnv demoWorld).1.2 =
      some (GoError.foreign "503 Service Unavailable") ∧
    ∃ c : Call,
      ((Invocation.create (demoCreate "b1")).run demoEnv demoWorld).2.calls =
        demoWorld.calls ++ [c] ∧
      ((Invocation.create (demoCreate "b1")).run demoEnv demoWorld).1.2 =
        (demoEnv.sendRequest demoWorld.net c.method c.path c.body).1.2 ∧
      ((Invocation.create (demoCreate "b1")).run demoEnv demoWorld).2.net =
        (demoEnv.sendRequest demoWorld.net c.method c.path c.body).2 ∧
      ∀ u : List UInt8 → List UInt8 → List UInt8 × Option (GoError String),
        ((Invocation.create (demoCreate "b1")).run
          { demoEnv with jsonUnmarshal := u } demoWorld).1.2 =
        ((Invocation.create (demoCreate "b1")).run demoEnv demoWorld).1.2 :=
  ⟨by decide, by decide,
    dispatcher_error_is_returned_unchanged demoEnv demoWorld
      (Invocation.create (demoCreate "b1")) (by decide)⟩

/-! ## Wording of the validation messages -/

/-- C8, as stated, fails: the message `CreateBeneficiary` returns for an empty
`businessId` contains neither `businessId` nor `create`; the one `GetAllBeneficiaries`
returns does not contain `list`; the two `DeleteBeneficiary` returns do not contain
`delete`. -/
theorem validation_message_operation_counterexample :
    (CreateBeneficiary demoEnv (demoCreate "") demoWorld).1.2 =
      some (GoError.errorsNew "business ID is required for beneficiary") ∧
    mentions "business ID is required for beneficiary" "businessId" = false ∧
    mentions "business ID is required for beneficiary" "create" = false ∧
    (GetAllBeneficiaries demoEnv ⟨"", "", ""⟩ demoWorld).1.2.2 =
      some (GoError.errorsNew "businessId is required to fetch the beneficiary") ∧
    mentions "businessId is required to fetch the beneficiary" "list" = false ∧
    (DeleteBeneficiary demoEnv ⟨"", "ben1"⟩ demoWorld).1.2 =
      some (GoError.errorsNew "businessId is required to fetch the beneficiary") ∧
    mentions "businessId is required to fetch the beneficiary" "delete" = false ∧
    (DeleteBeneficiary demoEnv ⟨"b1", ""⟩ demoWorld).1.2 =
      some (GoError.errorsNew "beneficiaryId is required to fetch the beneficiary") ∧
    mentions "beneficiaryId is required to fetch the beneficiary" "delete" = false := by
  decide

/-- C8, amended: for each of the five operations and each required identifier it checks,
the message of the validation error returned when that identifier is empty names the
missing field: `beneficiaryId` for a missing beneficiary identifier, and for a missing
business identifier `businessId`, which `CreateBeneficiary` writes `business ID`.  The
messages of `GetBeneficiary` and of `GetAllBeneficiaries` contain the word `fetch`,
those of `UpdateBeneficiary` the word `update`, and the message of `CreateBeneficiary`
contains none of the words create, list, fetch, update, delete.  (Nothing is said of
the operation word in the messages of `DeleteBeneficiary`.) -/
theorem validation_message_names_field {Response ε σ : Type} (env : Env Response ε σ)
    (w : World Response σ) (inv : Invocation) (h : ¬ inv.valid) :
    ∃ msg, (inv.run env w).1.2 = some (GoError.errorsNew msg) ∧
      (inv.businessId = "" → mentions msg inv.businessIdWord = true) ∧
      (inv.businessId ≠ "" → mentions msg "beneficiaryId" = true) ∧
      (∀ word, inv.messageOperationWord = some word → mentions msg word = true) ∧
      (∀ beneficiary, inv = Invocation.create beneficiary →
        ∀ word ∈ operationWords, mentions msg word = false) := by
  unfold Invocation.valid at h
  cases inv with
  | create beneficiary =>
    simp only [Invocation.businessId, Invocation.beneficiaryId] at h
    have hb : beneficiary.BusinessId = "" := by simpa using h
    refine ⟨"business ID is required for beneficiary", ?_, ?_, ?_, ?_, ?_⟩
    · simp [Invocation.run, CreateBeneficiary, hb]
    · intro _; show mentions _ "business ID" = true; decide
    · intro hne; exact absurd hb hne
    · intro word hw; simp [Invocation.messageOperationWord] at hw
    · intro _ _; decide
  | list params =>
    simp only [Invocation.businessId, Invocation.beneficiaryId] at h
    have hb : params.BusinessId = "" := by simpa using h
    refine ⟨businessIdRequiredError, ?_, ?_, ?_, ?_, ?_⟩
    · simp [Invocation.run, GetAllBeneficiaries, hb]
    · intro _; show mentions _ "businessId" = true; decide
    · intro hne; exact absurd hb hne
    · intro word hw
      simp only [Invocation.messageOperationWord, Option.some.injEq] at hw
      subst hw; decide
    · intro _ hc; cases hc
  | get params =>
    simp only [Invocation.businessId, Invocation.beneficiaryId] at h
    by_cases hb : params.BusinessId = ""
    · refine ⟨businessIdRequiredError, ?_, ?_, ?_, ?_, ?_⟩
      · simp [Invocation.run, GetBeneficiary, hb]
      · intro _; show mentions _ "businessId" = true; decide
      · intro hne; exact absurd hb hne
      · intro word hw
        simp only [Invocation.messageOperationWord, Option.some.injEq] at hw
        subst hw; decide
      · intro _ hc; cases hc
    · have hn : params.BeneficiaryId = "" := by simpa [hb] using h
      refine ⟨"beneficiaryId is required to fetch the beneficiary", ?_, ?_, ?_, ?_, ?_⟩
      · simp [Invocation.run, GetBeneficiary, hb, hn]
      · intro he; exact absurd he hb
      · intro _; decide
      · intro word hw
        simp only [Invocation.messageOperationWord, Option.some.injEq] at hw
        subst hw; decide
      · intro _ hc; cases hc
  | update body =>
    simp only [Invocation.businessId, Invocation.beneficiaryId] at h
    by_cases hb : body.BusinessId = ""
    · refine ⟨"businessId is required to update the beneficiary", ?_, ?_, ?_, ?_, ?_⟩
      · simp [Invocation.run, UpdateBeneficiary, hb]
      · intro _; show mentions _ "businessId" = true; decide
      · intro hne; exact absurd hb hne
      · intro word hw
        simp only [Invocation.messageOperationWord, Option.some.injEq] at hw
        subst hw; decide
      · intro _ hc; cases hc
    · have hn : body.BeneficiaryId = "" := by simpa [hb] using h
      refine ⟨"beneficiaryId is required to update the beneficiary", ?_, ?_, ?_, ?_, ?_⟩
      · simp [Invocation.run, UpdateBeneficiary, hb, hn]
      · intro he; exact absurd he hb
      · intro _; decide
      · intro word hw
        simp only [Invocation.messageOperationWord, Option.some.injEq] at hw
        subst hw; decide
      · intro _ hc; cases hc
  | delete params =>
    simp only [Invocation.businessId, Invocation.beneficiaryId] at h
    by_cases hb : params.BusinessId = ""
    · refine ⟨"businessId is required to fetch the beneficiary", ?_, ?_, ?_, ?_, ?_⟩
      · simp [Invocation.run, DeleteBeneficiary, hb]
      · intro _; show mentions _ "businessId" = true; decide
      · intro hne; exact absurd hb hne
      · intro word hw; simp [Invocation.messageOperationWord] at hw
      · intro _ hc; cases hc
    · have hn : params.BeneficiaryId = "" := by simpa [hb] using h
      refine ⟨"beneficiaryId is required to fetch the beneficiary", ?_, ?_, ?_, ?_, ?_⟩
      · simp [Invocation.run, DeleteBeneficiary, hb, hn]
      · intro he; exact absurd he hb
      · intro _; decide
      · intro word hw; simp [Invocation.messageOperationWord] at hw
      · intro _ hc; cases hc

theorem validation_message_names_field_witness :
    ¬ (Invocation.update (demoUpdate "b1" "")).valid ∧
    ∃ msg, ((Invocation.update (demoUpdate "b1" "")).run demoEnv demoWorld).1.2 =
        some (GoError.errorsNew msg) ∧
      ((Invocation.update (demoUpdate "b1" "")).businessId = "" →
        mentions msg (Invocation.update (demoUpdate "b1" "")).businessIdWord = true) ∧
      ((Invocation.update (demoUpdate "b1" "")).businessId ≠ "" →
        mentions msg "beneficiaryId" = true) ∧
      (∀ word, (Invocation.update (demoUpdate "b1" "")).messageOperationWord = some word →
        mentions msg word = true) ∧
      (∀ beneficiary, Invocation.update (demoUpdate "b1" "") = Invocation.create beneficiary →
        ∀ word ∈ operationWords, mentions msg word = false) :=
  ⟨by decide,
    validation_message_names_field demoEnv demoWorld (Invocation.update (demoUpdate "b1" ""))
      (by decide)⟩

/-! ## The shared response variable -/

/-- C9: every operation decodes the reply into the one package variable `jsonResponse`
and returns that variable.  For an argument that passes validation there is exactly one
dispatch call; the variable ends up holding what the decoder made of the reply bytes of
that call starting from the variable's previous value, and the `Response` returned is
the variable's value; so when the decoder rejects the reply and leaves its destination
as it was, the `Response` returned is the value the previous call left in the variable.
For an argument that fails validation the `Response` returned is the empty one and the
variable keeps its value. -/
theorem jsonResponse_is_shared_across_calls {Response ε σ : Type} (env : Env Response ε σ)
    (w : World Response σ) (inv : Invocation) :
    (inv.valid →
      ∃ c : Call,
        (inv.run env w).2.calls = w.calls ++ [c] ∧
        (inv.run env w).2.jsonResponse =
          (env.jsonUnmarshal (env.sendRequest w.net c.method c.path c.body).1.1
            w.jsonResponse).1 ∧
        (inv.run env w).1.1 = (inv.run env w).2.jsonResponse ∧
        ∀ e, env.jsonUnmarshal (env.sendRequest w.net c.method c.path c.body).1.1
              w.jsonResponse = (w.jsonResponse, some e) →
          (inv.run env w).1.1 = w.jsonResponse ∧
          (inv.run env w).2.jsonResponse = w.jsonResponse) ∧
    (¬ inv.valid →
      (inv.run env w).1.1 = env.emptyResponse ∧
      (inv.run env w).2.jsonResponse = w.jsonResponse) := by
  refine ⟨fun h => ⟨inv.triple, ?_⟩, fun h => ?_⟩
  · rw [Invocation.run_of_valid env w inv h]
    refine ⟨rfl, rfl, rfl, fun e he => ?_⟩
    simp only [dispatchAndDecode, unmarshalIntoJsonResponse, callSendRequest, he, and_self]
  · obtain ⟨h1, h2⟩ := Invocation.run_of_not_valid env w inv h
    exact ⟨h1, by rw [h2]⟩

theorem jsonResponse_is_shared_across_calls_witness :
    (Invocation.create (demoCreate "b1")).valid ∧
    ¬ (Invocation.create (demoCreate "")).valid ∧
    demoWorldAfterGet.jsonResponse = [123, 125] ∧
    demoEnv.emptyResponse = [] ∧
    ((Invocation.create (demoCreate "b1")).run demoEnv demoWorldAfterGet).1 =
      ([123, 125], some (GoError.foreign "503 Service Unavailable")) ∧
    ((Invocation.create (demoCreate "b1")).run demoEnv demoWorldAfterGet).1.1 =
      demoWorldAfterGet.jsonResponse ∧
    ((Invocation.create (demoCreate "b1")).run demoEnv demoWorldAfterGet).2.jsonResponse =
      demoWorldAfterGet.jsonResponse ∧
    ((Invocation.create (demoCreate "")).run demoEnv demoWorldAfterGet).1.1 =
      demoEnv.emptyResponse ∧
    ((Invocation.create (demoCreate "")).run demoEnv demoWorldAfterGet).2.jsonResponse =
      demoWorldAfterGet.jsonResponse := by
  refine ⟨by decide, by decide, by decide, rfl, by decide, ?_⟩
  have hrejected := (jsonResponse_is_shared_across_calls demoEnv demoWorldAfterGet
    (Invocation.create (demoCreate ""))).2 (by decide)
  obtain ⟨c, hc, _, _, hu⟩ :=
    (jsonResponse_is_shared_across_calls demoEnv demoWorldAfterGet
      (Invocation.create (demoCreate "b1"))).1 (by decide)
  have hcalls : ((Invocation.create (demoCreate "b1")).run demoEnv demoWorldAfterGet).2.calls =
      demoWorldAfterGet.calls ++ [(Invocation.create (demoCreate "b1")).triple] := by decide
  rw [hcalls] at hc
  have hceq : (Invocation.create (demoCreate "b1")).triple = c := by
    simpa using List.append_cancel_left hc
  subst hceq
  have hstale := hu (GoError.foreign "unexpected end of JSON input") (by decide)
  exact ⟨hstale.1, hstale.2, hrejected⟩

/-! ## Path construction -/

/-- Cancelling at the first separator: two lists free of `c` followed by `c` and a rest
are equal only when both parts are. -/
theorem split_at_separator {α : Type} (c : α) :
    ∀ (b1 b2 n1 n2 : List α), c ∉ b1 → c ∉ b2 →
      b1 ++ c :: n1 = b2 ++ c :: n2 → b1 = b2 ∧ n1 = n2
  | [], [], n1, n2, _, _, h => by simpa using h
  | [], y :: b2, n1, n2, _, h2, h => by
      simp only [List.nil_append, List.cons_append, List.cons.injEq] at h
      exact absurd (h.1 ▸ List.mem_cons_self _ _) h2
  | x :: b1, [], n1, n2, h1, _, h => by
      simp only [List.nil_append, List.cons_append, List.cons.injEq] at h
      exact absurd (h.1 ▸ List.mem_cons_self _ _) h1
  | x :: b1, y :: b2, n1, n2, h1, h2, h => by
      simp only [List.cons_append, List.cons.injEq] at h
      obtain ⟨hb, hn⟩ := split_at_separator c b1 b2 n1 n2
        (fun hm => h1 (List.mem_cons_of_mem _ hm)) (fun hm => h2 (List.mem_cons_of_mem _ hm)) h.2
      exact ⟨by rw [h.1, hb], hn⟩

/-- C10: the path that `GetBeneficiary`, `UpdateBeneficiary` and `DeleteBeneficiary` hand
to the dispatcher is `beneficiaryPath businessId beneficiaryId`, the plain
concatenation base ++ businessId ++ `/` ++ beneficiaryId.  On non-empty identifiers
whose business identifiers contain no `/` it is injective; without that condition it
is not: `("a/b", "c")` and `("a", "b/c")` are different pairs of non-empty identifiers,
both pass validation, and both give `/profile/beneficiaries/business/a/b/c`. -/
theorem beneficiaryPath_injective_iff_no_slash {Response ε σ : Type} (env : Env Response ε σ)
    (w : World Response σ) :
    (∀ (inv : Invocation) (n : String), inv.beneficiaryId = some n → inv.valid →
      ∃ c : Call, (inv.run env w).2.calls = w.calls ++ [c] ∧
        c.path = beneficiaryPath inv.businessId n ∧
        c.path = "/profile/beneficiaries/business/" ++ inv.businessId ++ "/" ++ n) ∧
    (∀ b1 n1 b2 n2 : String, b1 ≠ "" → n1 ≠ "" → b2 ≠ "" → n2 ≠ "" →
      '/' ∉ b1.data → '/' ∉ b2.data →
      beneficiaryPath b1 n1 = beneficiaryPath b2 n2 → b1 = b2 ∧ n1 = n2) ∧
    ((Invocation.get ⟨"a/b", "c"⟩).valid ∧ (Invocation.get ⟨"a", "b/c"⟩).valid ∧
      (("a/b", "c") : String × String) ≠ ("a", "b/c") ∧
      beneficiaryPath "a/b" "c" = "/profile/beneficiaries/business/a/b/c" ∧
      beneficiaryPath "a" "b/c" = "/profile/beneficiaries/business/a/b/c") := by
  refine ⟨?_, ?_, by decide⟩
  · intro inv n hn hv
    refine ⟨inv.triple, ?_, ?_⟩
    · rw [Invocation.run_of_valid env w inv hv]; rfl
    · cases inv <;> simp_all [Invocation.beneficiaryId, Invocation.triple,
        Invocation.businessId, beneficiaryPath, beneficiariesUrl]
  · intro b1 n1 b2 n2 _ _ _ _ h1 h2 h
    have hd := congrArg String.data h
    simp only [beneficiaryPath, String.data_append, List.append_assoc] at hd
    have hd2 := List.append_cancel_left hd
    obtain ⟨hb, hn⟩ := split_at_separator '/' b1.data b2.data n1.data n2.data h1 h2
      (by simpa using hd2)
    exact ⟨String.ext hb, String.ext hn⟩

theorem beneficiaryPath_injective_iff_no_slash_witness :
    ("b1" : String) ≠ "" ∧ ("ben1" : String) ≠ "" ∧
    '/' ∉ ("b1" : String).data ∧
    beneficiaryPath "b1" "ben1" = "/profile/beneficiaries/business/b1/ben1" ∧
    (beneficiaryPath "b1" "ben1" = beneficiaryPath "b1" "ben1" →
      ("b1" : String) = "b1" ∧ ("ben1" : String) = "ben1") ∧
    (∃ c : Call,
      ((Invocation.get ⟨"b1", "ben1"⟩).run demoEnv demoWorld).2.calls = demoWorld.calls ++ [c] ∧
      c.path = beneficiaryPath "b1" "ben1" ∧
      c.path = "/profile/beneficiaries/business/b1/ben1") :=
  ⟨by decide, by decide, by decide, by decide,
    (beneficiaryPath_injective_iff_no_slash demoEnv demoWorld).2.1 "b1" "ben1" "b1" "ben1"
      (by decide) (by decide) (by decide) (by decide) (by decide) (by decide),
    (beneficiaryPath_injective_iff_no_slash demoEnv demoWorld).1
      (Invocation.get ⟨"b1", "ben1"⟩) "ben1" rfl (by decide)⟩

end Fincra
